import Mathlib

/-!
Verification of the quiet-mode proxy bridge (`2bored2wait-quarry.py`).

The development shallowly embeds the chat-handling core of the proxy:

* `read_chat_downstream` embeds `QuietBridge.read_chat(buff, "downstream")`,
  the version-dispatched decoder of downstream `chat_message` packets.
  A raw packet buffer is modelled as a `ChatWire` value carrying the fields
  the decoder would unpack; a shape/version mismatch (which would raise in
  the source) is modelled as `none`.
* `send_system` embeds `QuietBridge.send_system`, the per-version encoder
  of locally synthesized notices.
* `packet_upstream_chat_command`, `packet_upstream_chat_message`,
  `packet_downstream_chat_message`, `toggle_quiet_mode` and
  `downstream_disconnected` embed the corresponding `QuietBridge` handlers.
  Each handler returns the new bridge state together with the list of
  observable effects (packets sent to either peer, log lines) it performs.
* `auth_ok` embeds `Protocol2b2t.auth_ok`, with the credential store
  (`get_credentials()`) passed in as an explicit `Option Credentials`.

Python-specific semantics are embedded explicitly: `pyOrStr` models
`x or y` on an optional string (both `None` and the empty string are
falsy), `pyStartswith` models `str.startswith`, and `pyFormatOpt` models
`"%s" % x` applied to a `str`-or-`None` value.
-/

/-- Python `x or y` where `x : Optional[str]` and `y : str`:
`None` and `""` are falsy, so they fall through to `y`. -/
def pyOrStr : Option String → String → String
  | some s, t => if s = "" then t else s
  | none, t => t

/-- Python `s.startswith(p)`. -/
def pyStartswith (s p : String) : Bool :=
  List.isPrefixOf p.data s.data

/-- Python `s.strip()`: drop leading and trailing whitespace. -/
def pyStrip (s : String) : String :=
  ⟨((s.data.dropWhile Char.isWhitespace).reverse.dropWhile
      Char.isWhitespace).reverse⟩

/-- Python `"%s" % x` where `x : Optional[str]` (`None` prints as `"None"`). -/
def pyFormatOpt : Option String → String
  | some s => s
  | none => "None"

/-- The signed-message structure unpacked by `buff.unpack_signed_message()`
(1.19.1+): the optional unsigned content and the signed body message. -/
structure SignedMessage where
  unsigned_content : Option String
  body_message : String
deriving DecidableEq

/-- Fields following the leading chat text of a downstream `chat_message`
packet for protocol versions below 760. -/
inductive ChatRest where
  /-- 1.19 (protocol 759): optional unsigned text, position varint,
  sender UUID, sender name. -/
  | signedOpt (unsigned_text : Option String) (position : Nat)
      (sender_uuid : Nat) (sender_name : String)
  /-- 1.8.x – 1.18 (protocol 47 ≤ v < 759): a single position byte
  (any further bytes are discarded by the decoder). -/
  | classic (position : Nat)
  /-- pre-1.8 (protocol < 47): nothing further. -/
  | legacy
deriving DecidableEq

/-- A downstream `chat_message` packet buffer, pre-tokenized into the
fields `read_chat` would unpack. -/
inductive ChatWire where
  /-- 1.19.1+ (protocol ≥ 760): signed message, filter result varint,
  position varint, sender name. -/
  | modern (signed : SignedMessage) (filter_result : Nat) (position : Nat)
      (sender_name : String)
  /-- all earlier versions: a leading chat text, then version-specific rest. -/
  | withText (text : String) (rest : ChatRest)
deriving DecidableEq

/-- The position discriminant carried by a chat wire, when one exists
(positions 1 and 2 are the System and GameInfo categories). -/
def wirePosition : ChatWire → Option Nat
  | .modern _ _ position _ => some position
  | .withText _ (.signedOpt _ position _ _) => some position
  | .withText _ (.classic position) => some position
  | .withText _ .legacy => none

/-- A packet sent to the downstream peer. -/
inductive DownPacket where
  /-- `system_message` packet for protocol ≥ 760: chat text + overlay flag. -/
  | system_message_overlay (text : String) (overlay : Bool)
  /-- `system_message` packet for protocol 759: chat text + type varint. -/
  | system_message_typed (text : String) (msgType : Nat)
  /-- `chat_message` packet synthesized by `send_system` for protocol < 759:
  chat text + position byte + sender UUID. -/
  | chat_message_notice (text : String) (position : Nat) (sender_uuid : Nat)
  /-- a raw downstream-bound `chat_message` packet forwarded unchanged. -/
  | chat_message_forward (w : ChatWire)
deriving DecidableEq

/-- Whether a downstream packet is a `chat_message` packet (as opposed to a
dedicated `system_message` packet). Only `chat_message` packets are
dispatched to `packet_downstream_chat_message`. -/
def packetIsChatMessage : DownPacket → Bool
  | .chat_message_notice .. => true
  | .chat_message_forward .. => true
  | _ => false

/-- Reinterpret the bytes of a downstream `chat_message` packet as the
wire shape seen by `read_chat`. A `chat_message_notice` consists of a chat
text, a position byte and a trailing sender UUID; the classic decoder reads
the text and the position byte and discards the rest, so its wire shape is
`withText text (classic position)`. A `system_message` packet is not a
`chat_message` at all. -/
def chatWireOf : DownPacket → Option ChatWire
  | .chat_message_notice text position _ => some (.withText text (.classic position))
  | .chat_message_forward w => some w
  | _ => none

/-- An observable effect of a bridge handler. -/
inductive Effect where
  /-- `self.upstream.send_packet("chat_message", buff.read())`:
  the original upstream-bound chat packet (its decoded text) forwarded. -/
  | sendUpstreamChat (text : String)
  /-- `self.upstream.send_packet("chat_command", buff.read())`. -/
  | sendUpstreamCommand (command : String)
  /-- `self.downstream.send_packet(...)`. -/
  | sendDownstream (p : DownPacket)
  /-- a `logger.info` or `print` line. -/
  | log (line : String)
deriving DecidableEq

/-- The packets a handler sends to the downstream peer, in order. -/
def downstreamSends (effs : List Effect) : List DownPacket :=
  effs.filterMap fun e =>
    match e with
    | .sendDownstream p => some p
    | _ => none

/-- The effects a handler sends to the upstream peer, in order. -/
def upstreamSends (effs : List Effect) : List Effect :=
  effs.filter fun e =>
    match e with
    | .sendUpstreamChat _ => true
    | .sendUpstreamCommand _ => true
    | _ => false

/-- Per-bridge state: the `quiet_mode` flag (class attribute, initially
`False`) and whether an upstream connection handle is held. -/
structure QuietBridge where
  quiet_mode : Bool
  upstream_open : Bool
deriving DecidableEq

/-- A freshly created bridge: `quiet_mode = False`, no upstream yet. -/
def QuietBridge.fresh : QuietBridge := ⟨false, false⟩

/-- `QuietBridge.send_system(message)`: version-dispatched encoding of a
locally synthesized notice. -/
def send_system (pv : Nat) (message : String) : DownPacket :=
  if 760 ≤ pv then
    -- 1.19.1+: system_message, overlay False to put in chat
    .system_message_overlay message false
  else if pv = 759 then
    -- 1.19: system_message, type 1 for system chat message
    .system_message_typed message 1
  else
    -- earlier: chat_message with position byte 0 and a nil sender UUID
    .chat_message_notice message 0 0

/-- `QuietBridge.read_chat(buff, "upstream")`: unpack the chat text. -/
def read_chat_upstream (text : String) : String := text

/-- `QuietBridge.read_chat(buff, "downstream")`: version-dispatched decode
of a downstream `chat_message` buffer. Returns the chat text the handler
logs and filters on, or `none` when the message is ignored (System or
GameInfo position, or blank classic text) or the buffer does not have the
shape the negotiated version unpacks. -/
def read_chat_downstream (pv : Nat) (w : ChatWire) : Option String :=
  if 760 ≤ pv then
    -- 1.19.1+
    match w with
    | .modern signed _ position sender_name =>
      if position ≠ 1 ∧ position ≠ 2 then
        -- Ignore system and game info messages
        some (":: <" ++ sender_name ++ "> " ++
          pyOrStr signed.unsigned_content signed.body_message)
      else
        none
    | _ => none
  else
    match w with
    | .withText text rest =>
      if pv = 759 then
        -- 1.19
        match rest with
        | .signedOpt unsigned_text position _ sender_name =>
          if position ≠ 1 ∧ position ≠ 2 then
            some ("<" ++ sender_name ++ "> " ++ pyOrStr unsigned_text text)
          else
            none
        | _ => none
      else if 47 ≤ pv then
        -- 1.8.x+
        match rest with
        | .classic position =>
          if (position ≠ 1 ∧ position ≠ 2) ∧ pyStrip text ≠ "" then
            some text
          else
            none
        | _ => none
      else
        -- pre-1.8: return the text, remaining bytes are never unpacked
        some text
    | _ => none

/-- `QuietBridge.toggle_quiet_mode`: flip the flag and send one notice
naming the new state. -/
def toggle_quiet_mode (pv : Nat) (b : QuietBridge) : QuietBridge × List Effect :=
  let b' : QuietBridge := ⟨!b.quiet_mode, b.upstream_open⟩
  -- Python `self.quiet_mode and "enabled" or "disabled"`
  let action := if b'.quiet_mode then "enabled" else "disabled"
  (b', [.sendDownstream (send_system pv ("Quiet mode " ++ action))])

/-- `QuietBridge.packet_upstream_chat_command`. -/
def packet_upstream_chat_command (pv : Nat) (b : QuietBridge)
    (command : String) : QuietBridge × List Effect :=
  if command = "quiet" then
    toggle_quiet_mode pv b
  else
    (b, [.sendUpstreamCommand command])

/-- `QuietBridge.packet_upstream_chat_message`. -/
def packet_upstream_chat_message (pv : Nat) (b : QuietBridge)
    (text : String) : QuietBridge × List Effect :=
  let chat_message := read_chat_upstream text
  let logE := Effect.log (" >> " ++ chat_message)
  if pyStartswith chat_message "/quiet" then
    let r := toggle_quiet_mode pv b
    (r.1, logE :: r.2)
  else if b.quiet_mode && !pyStartswith chat_message "/" then
    -- Do not let the player send chat messages in quiet mode
    (b, [logE, .sendDownstream
      (send_system pv "Can\x27t send messages while in quiet mode")])
  else
    -- Pass to upstream
    (b, [logE, .sendUpstreamChat text])

/-- `QuietBridge.packet_downstream_chat_message`. -/
def packet_downstream_chat_message (pv : Nat) (b : QuietBridge)
    (w : ChatWire) : QuietBridge × List Effect :=
  let chat_message := read_chat_downstream pv w
  let logE := Effect.log (" :: " ++ pyFormatOpt chat_message)
  -- All chat messages on 1.19+ are from players and should be ignored in quiet mode
  if b.quiet_mode ∧ 759 ≤ pv then
    (b, [logE])
  -- Ignore messages that look like chat when in quiet mode
  else if (match chat_message with
           | some t => b.quiet_mode && pyStartswith t "<"
           | none => false) then
    (b, [logE])
  else
    -- Pass to downstream
    (b, [logE, .sendDownstream (.chat_message_forward w)])

/-- `QuietBridge.downstream_disconnected`: log if an upstream is held;
no state change, nothing sent. -/
def downstream_disconnected (b : QuietBridge) : QuietBridge × List Effect :=
  if b.upstream_open then
    (b, [.log "Client disconnected. We stay connected."])
  else
    (b, [])

/-- The credential-store entry returned by `get_credentials()`. The
`uuid` field is `Option String` because the JSON value may be null. -/
structure Credentials where
  display_name : String
  uuid : Option String
  client_token : String
  access_token : String

/-- The session-server response payload, reduced to the field the
handshake consumes: the id entry of the data dictionary. -/
structure AuthData where
  id : String
deriving DecidableEq

/-- The `RuntimeError` message raised when `get_credentials()` returns
`None` after an empty session-server response. -/
def msg_no_credentials : String :=
  "The server responded with 204 to our hasJoined request\n" ++
  "so we did not get the uuid of the joined user\n" ++
  "and requesting the uuid from the credential helper failed as well\n\n" ++
  "There is a chance that it works if you try it again.\n" ++
  "Alternatively you try calling get_credentials() and debug\n" ++
  "why it does not find your login details."

/-- The `RuntimeError` message raised when the stored credentials have an
empty or missing uuid. -/
def msg_no_uuid : String :=
  "The server responded with 204 to our hasJoined request\n" ++
  "so we did not get the uuid of the joined user.\n\n" ++
  "As a fix you can include your UUID in the credentials file\n" ++
  "then it can be used as a fallback if the request to the\n" ++
  "mojang session server failed."

/-- `Protocol2b2t.auth_ok(data)`, with the credential store passed
explicitly. A raised `RuntimeError` is `Except.error` carrying the
message; proceeding into `super().auth_ok(data)` is `Except.ok` carrying
the (possibly substituted) data. -/
def auth_ok (store : Option Credentials) (data : Option AuthData) :
    Except String AuthData :=
  match data with
  | some d => .ok d
  | none =>
    match store with
    | none => .error msg_no_credentials
    | some credentials =>
      match credentials.uuid with
      | none => .error msg_no_uuid
      | some u =>
        if u = "" then .error msg_no_uuid
        else .ok ⟨u⟩

/-- A text starting with `"/quiet"` also starts with `"/"`. -/
theorem pyStartswith_slash_of_quiet (t : String)
    (h : pyStartswith t "/quiet" = true) : pyStartswith t "/" = true := by
  unfold pyStartswith at h ⊢
  cases hd : t.data with
  | nil => rw [hd] at h; simp [List.isPrefixOf] at h
  | cons c cs =>
    rw [hd] at h
    simp only [show ("/quiet").data = ['/', 'q', 'u', 'i', 'e', 't'] from rfl,
      show ("/").data = ['/'] from rfl, List.isPrefixOf,
      Bool.and_eq_true] at h ⊢
    exact ⟨h.1, trivial⟩

/-- C7: when the downstream connection closes while the bridge holds an
open upstream connection, the handler leaves the entire bridge state
(including `quiet_mode` and the upstream handle) unchanged and performs
only a single operator log line — no packet is sent in either direction. -/
theorem downstream_disconnected_preserves_state (b : QuietBridge)
    (h : b.upstream_open = true) :
    (downstream_disconnected b).1 = b ∧
    (downstream_disconnected b).2 =
      [Effect.log "Client disconnected. We stay connected."] := by
  simp [downstream_disconnected, h]

/-- Witness for C7 at a concrete bridge state. -/
theorem downstream_disconnected_preserves_state_witness :
    (downstream_disconnected ⟨true, true⟩).1 = ⟨true, true⟩ ∧
    (downstream_disconnected ⟨true, true⟩).2 =
      [Effect.log "Client disconnected. We stay connected."] :=
  downstream_disconnected_preserves_state ⟨true, true⟩ rfl

/-- C9: an upstream-bound `chat_command` whose payload is the literal
`"quiet"` toggles the quiet flag and sends nothing upstream; any other
payload is forwarded verbatim with the bridge state unchanged. -/
theorem chat_command_quiet_toggle (pv : Nat) (b : QuietBridge)
    (command : String) :
    (command = "quiet" →
      (packet_upstream_chat_command pv b command).1.quiet_mode = !b.quiet_mode ∧
      upstreamSends (packet_upstream_chat_command pv b command).2 = []) ∧
    (command ≠ "quiet" →
      (packet_upstream_chat_command pv b command).1 = b ∧
      (packet_upstream_chat_command pv b command).2 =
        [Effect.sendUpstreamCommand command]) := by
  constructor
  · intro h
    subst h
    simp [packet_upstream_chat_command, toggle_quiet_mode, upstreamSends]
  · intro h
    simp [packet_upstream_chat_command, h]

/-- Witness for C9 at payload `"quiet"` and a concrete state. -/
theorem chat_command_quiet_toggle_witness :
    (packet_upstream_chat_command 340 ⟨false, true⟩ "quiet").1.quiet_mode = true ∧
    upstreamSends (packet_upstream_chat_command 340 ⟨false, true⟩ "quiet").2 = [] :=
  (chat_command_quiet_toggle 340 ⟨false, true⟩ "quiet").1 rfl

/-- C10: a fresh bridge starts with quiet mode disabled; the downstream
chat handler and the disconnect handler never change the bridge state;
the upstream handlers change `quiet_mode` exactly when the toggle is
invoked (`/quiet`-prefixed chat, or the `quiet` command payload), in which
case they negate it; and toggling twice restores the original value. -/
theorem quiet_mode_initial_false_and_toggle_involutive (pv : Nat)
    (b : QuietBridge) (text command : String) (w : ChatWire) :
    QuietBridge.fresh.quiet_mode = false ∧
    (toggle_quiet_mode pv (toggle_quiet_mode pv b).1).1.quiet_mode = b.quiet_mode ∧
    (packet_downstream_chat_message pv b w).1 = b ∧
    (downstream_disconnected b).1 = b ∧
    (packet_upstream_chat_message pv b text).1.quiet_mode =
      (if pyStartswith text "/quiet" then !b.quiet_mode else b.quiet_mode) ∧
    (packet_upstream_chat_command pv b command).1.quiet_mode =
      (if command = "quiet" then !b.quiet_mode else b.quiet_mode) := by
  refine ⟨rfl, by simp [toggle_quiet_mode], ?_, ?_, ?_, ?_⟩
  · unfold packet_downstream_chat_message
    dsimp only
    split
    · rfl
    · split <;> rfl
  · unfold downstream_disconnected
    split <;> rfl
  · unfold packet_upstream_chat_message read_chat_upstream
    dsimp only
    split
    · simp [toggle_quiet_mode]
    · split <;> rfl
  · unfold packet_upstream_chat_command
    split
    · simp [toggle_quiet_mode]
    · rfl

/-- C2: with quiet mode enabled, an upstream-bound chat message whose text
does not start with `"/"` is not forwarded upstream; the bridge state is
unchanged and exactly one locally synthesized notice — the
chat-disabled explanation — is sent to the downstream peer. -/
theorem upstream_quiet_chat_suppressed_with_notice (pv : Nat)
    (b : QuietBridge) (text : String)
    (hq : b.quiet_mode = true) (h : pyStartswith text "/" = false) :
    (packet_upstream_chat_message pv b text).1 = b ∧
    upstreamSends (packet_upstream_chat_message pv b text).2 = [] ∧
    downstreamSends (packet_upstream_chat_message pv b text).2 =
      [send_system pv "Can\x27t send messages while in quiet mode"] := by
  have hq6 : pyStartswith text "/quiet" = false := by
    cases hqq : pyStartswith text "/quiet"
    · rfl
    · rw [pyStartswith_slash_of_quiet text hqq] at h
      exact absurd h (by simp)
  unfold packet_upstream_chat_message read_chat_upstream
  dsimp only
  rw [hq6, hq, h]
  simp [upstreamSends, downstreamSends]

/-- Witness for C2 at protocol 340, quiet on, text `"hello"`. -/
theorem upstream_quiet_chat_suppressed_with_notice_witness :
    (packet_upstream_chat_message 340 ⟨true, true⟩ "hello").1 = ⟨true, true⟩ ∧
    upstreamSends (packet_upstream_chat_message 340 ⟨true, true⟩ "hello").2 = [] ∧
    downstreamSends (packet_upstream_chat_message 340 ⟨true, true⟩ "hello").2 =
      [send_system 340 "Can\x27t send messages while in quiet mode"] :=
  upstream_quiet_chat_suppressed_with_notice 340 ⟨true, true⟩ "hello" rfl (by decide)

/-- C4: an upstream-bound chat message whose text starts with `"/quiet"`
flips the quiet flag (at any protocol version and from either state),
sends nothing upstream, and sends exactly one notice to the downstream
peer — `"Quiet mode enabled"` or `"Quiet mode disabled"` matching the new
state. -/
theorem slash_quiet_toggles_and_notifies (pv : Nat) (b : QuietBridge)
    (text : String) (h : pyStartswith text "/quiet" = true) :
    (packet_upstream_chat_message pv b text).1.quiet_mode = !b.quiet_mode ∧
    upstreamSends (packet_upstream_chat_message pv b text).2 = [] ∧
    downstreamSends (packet_upstream_chat_message pv b text).2 =
      [send_system pv
        ("Quiet mode " ++ (if !b.quiet_mode then "enabled" else "disabled"))] := by
  unfold packet_upstream_chat_message read_chat_upstream toggle_quiet_mode
  dsimp only
  rw [h]
  simp [upstreamSends, downstreamSends]

/-- Witness for C4 at protocol 759, quiet off, text `"/quiet"`. -/
theorem slash_quiet_toggles_and_notifies_witness :
    (packet_upstream_chat_message 759 ⟨false, true⟩ "/quiet").1.quiet_mode = true ∧
    upstreamSends (packet_upstream_chat_message 759 ⟨false, true⟩ "/quiet").2 = [] ∧
    downstreamSends (packet_upstream_chat_message 759 ⟨false, true⟩ "/quiet").2 =
      [send_system 759 ("Quiet mode " ++ "enabled")] :=
  slash_quiet_toggles_and_notifies 759 ⟨false, true⟩ "/quiet" (by decide)

/-- C1 (amended): with quiet mode enabled at protocol ≥ 759, the
downstream handler suppresses every `chat_message` packet — it performs
only the log line and forwards nothing, regardless of the decoded
position of the packet; in particular messages whose position discriminant is
System or GameInfo are suppressed too, not forwarded. -/
theorem downstream_quiet_modern_suppresses_everything (pv : Nat)
    (b : QuietBridge) (w : ChatWire)
    (hpv : 759 ≤ pv) (hq : b.quiet_mode = true) :
    (packet_downstream_chat_message pv b w).1 = b ∧
    (packet_downstream_chat_message pv b w).2 =
      [Effect.log (" :: " ++ pyFormatOpt (read_chat_downstream pv w))] ∧
    downstreamSends (packet_downstream_chat_message pv b w).2 = [] := by
  unfold packet_downstream_chat_message
  simp [hq, hpv, downstreamSends]

/-- Witness for C1 at protocol 760, quiet on, a position-0 chat packet. -/
theorem downstream_quiet_modern_suppresses_everything_witness :
    (packet_downstream_chat_message 760 ⟨true, true⟩
      (.modern ⟨none, "hello"⟩ 0 0 "Alice")).1 = ⟨true, true⟩ ∧
    (packet_downstream_chat_message 760 ⟨true, true⟩
      (.modern ⟨none, "hello"⟩ 0 0 "Alice")).2 =
      [Effect.log (" :: " ++ pyFormatOpt (read_chat_downstream 760
        (.modern ⟨none, "hello"⟩ 0 0 "Alice")))] ∧
    downstreamSends (packet_downstream_chat_message 760 ⟨true, true⟩
      (.modern ⟨none, "hello"⟩ 0 0 "Alice")).2 = [] :=
  downstream_quiet_modern_suppresses_everything 760 ⟨true, true⟩
    (.modern ⟨none, "hello"⟩ 0 0 "Alice") (by decide) rfl

/-- C1 counterexample to the claim as stated: at protocol 760 with quiet
mode enabled, a `chat_message` packet whose position discriminant is 1
(System) is _not_ forwarded downstream — the handler drops it before
examining the position. -/
theorem downstream_quiet_modern_drops_system_position :
    wirePosition (ChatWire.modern ⟨none, "Server restarting"⟩ 0 1 "srv") = some 1 ∧
    downstreamSends (packet_downstream_chat_message 760 ⟨true, true⟩
      (ChatWire.modern ⟨none, "Server restarting"⟩ 0 1 "srv")).2 = [] :=
  ⟨rfl, rfl⟩

/-- C5: at a Classic-epoch protocol version (47 ≤ v < 759) with quiet mode
enabled, a downstream `chat_message` whose decode yields a text starting
with `"<"` is suppressed, while one whose decode yields any other text is
forwarded downstream unchanged (the original packet, byte for byte). -/
theorem classic_quiet_heuristic_filter (pv position : Nat) (b : QuietBridge)
    (text t : String) (h47 : 47 ≤ pv) (h759 : pv < 759)
    (hq : b.quiet_mode = true)
    (hdec : read_chat_downstream pv (.withText text (.classic position)) = some t) :
    (pyStartswith t "<" = true →
      downstreamSends (packet_downstream_chat_message pv b
        (.withText text (.classic position))).2 = []) ∧
    (pyStartswith t "<" = false →
      downstreamSends (packet_downstream_chat_message pv b
        (.withText text (.classic position))).2 =
        [DownPacket.chat_message_forward (.withText text (.classic position))]) := by
  have h7 : ¬ 759 ≤ pv := by omega
  constructor <;> intro hlt <;>
    simp [packet_downstream_chat_message, hdec, hq, h7, hlt, downstreamSends]

/-- Witness for C5 at protocol 340: `"<Alice> hi"` is suppressed. -/
theorem classic_quiet_heuristic_filter_witness :
    downstreamSends (packet_downstream_chat_message 340 ⟨true, true⟩
      (.withText "<Alice> hi" (.classic 0))).2 = [] :=
  (classic_quiet_heuristic_filter 340 0 ⟨true, true⟩ "<Alice> hi" "<Alice> hi"
    (by decide) (by decide) rfl (by decide)).1 (by decide)

/-- C6 counterexample to the claim as stated: at protocol 759 with the
optional unsigned override _present but empty_, the decoder uses the
display text, not the override (Python `p_unsigned_text or p_text`
treats the empty string as falsy). The claim predicts the envelope text
`""` (hence decode `some ("<Bob> " ++ "")`), but the code yields the
display text `"fallback"`. -/
theorem signedopt_unsigned_override_empty_cex :
    read_chat_downstream 759
      (.withText "fallback" (.signedOpt (some "") 0 0 "Bob")) =
      some "<Bob> fallback" ∧
    some "<Bob> fallback" ≠ some ("<Bob> " ++ "") := by
  exact ⟨rfl, by decide⟩

/-- C6 (amended): at protocol 759, for a `chat_message` whose position is
neither System (1) nor GameInfo (2), the decoded text is the unsigned
override when it is present _and non-empty_; otherwise (override absent
or empty) it is the display text. -/
theorem signedopt_unsigned_override_choice (text sender_name : String)
    (unsigned_text : Option String) (position sender_uuid : Nat)
    (h1 : position ≠ 1) (h2 : position ≠ 2) :
    read_chat_downstream 759
      (.withText text (.signedOpt unsigned_text position sender_uuid sender_name)) =
      some ("<" ++ sender_name ++ "> " ++
        (match unsigned_text with
         | some u => if u = "" then text else u
         | none => text)) := by
  cases unsigned_text <;> simp [read_chat_downstream, pyOrStr, h1, h2]

/-- Witness for C6 at a concrete non-empty override. -/
theorem signedopt_unsigned_override_choice_witness :
    read_chat_downstream 759
      (.withText "signed body" (.signedOpt (some "override") 0 7 "Bob")) =
      some ("<" ++ "Bob" ++ "> " ++ "override") :=
  signedopt_unsigned_override_choice "signed body" "Bob" (some "override") 0 7
    (by decide) (by decide)

/-- C3 counterexample to the claim as stated: at protocol 47, the notice
encoder emits a `chat_message` whose position byte is 0 — the ordinary
chat position, not System — so re-parsing it with the downstream chat
decoder classifies it as a chat text; and with quiet mode on and the
notice text starting with `"<"`, the downstream-bound quiet filter
suppresses it rather than forwarding it. -/
theorem send_system_reparse_counterexample :
    send_system 47 "<x" = .chat_message_notice "<x" 0 0 ∧
    chatWireOf (send_system 47 "<x") = some (.withText "<x" (.classic 0)) ∧
    wirePosition (.withText "<x" (.classic 0)) = some 0 ∧
    read_chat_downstream 47 (.withText "<x" (.classic 0)) = some "<x" ∧
    downstreamSends (packet_downstream_chat_message 47 ⟨true, true⟩
      (.withText "<x" (.classic 0))).2 = [] := by
  refine ⟨rfl, rfl, rfl, by decide, by decide⟩

/-- C3 (amended): at protocol ≥ 759 the notice encoder emits a dedicated
`system_message` packet — not a `chat_message` — so the downstream chat
decoder and quiet filter never process it. At earlier protocols it emits
a `chat_message` with position byte 0 (the ordinary chat position, not
System); re-fed to the downstream handler, that packet is suppressed
exactly when quiet mode is on, its text starts with `"<"`, and (at
protocol ≥ 47) its text is non-blank — otherwise it is forwarded. -/
theorem send_system_reparse_classification (pv : Nat) (text : String)
    (b : QuietBridge) :
    (759 ≤ pv → packetIsChatMessage (send_system pv text) = false) ∧
    (pv < 759 →
      send_system pv text = .chat_message_notice text 0 0 ∧
      chatWireOf (send_system pv text) = some (.withText text (.classic 0)) ∧
      (downstreamSends (packet_downstream_chat_message pv b
          (.withText text (.classic 0))).2 = [] ↔
        (b.quiet_mode = true ∧ pyStartswith text "<" = true ∧
          (47 ≤ pv → pyStrip text ≠ "")))) := by
  constructor
  · intro h
    unfold send_system
    by_cases h760 : 760 ≤ pv
    · simp [h760, packetIsChatMessage]
    · have h759 : pv = 759 := by omega
      simp [h759, packetIsChatMessage]
  · intro h
    have h760 : ¬ 760 ≤ pv := by omega
    have h759 : pv ≠ 759 := by omega
    have h759' : ¬ 759 ≤ pv := by omega
    refine ⟨by simp [send_system, h760, h759],
      by simp [send_system, h760, h759, chatWireOf], ?_⟩
    by_cases h47 : 47 ≤ pv
    · have hdec : read_chat_downstream pv (.withText text (.classic 0)) =
          (if pyStrip text ≠ "" then some text else none) := by
        simp [read_chat_downstream, h760, h759, h47]
      by_cases htrim : pyStrip text = ""
      · rw [htrim] at hdec
        simp only [ne_eq, not_true_eq_false, if_false] at hdec
        simp [packet_downstream_chat_message, hdec, h759', downstreamSends,
          h47, htrim]
      · rw [if_pos htrim] at hdec
        by_cases hq : b.quiet_mode <;> by_cases hlt : pyStartswith text "<" <;>
          simp [packet_downstream_chat_message, hdec, h759', hq, hlt,
            downstreamSends, h47, htrim]
    · have hdec : read_chat_downstream pv (.withText text (.classic 0)) =
          some text := by
        simp [read_chat_downstream, h760, h759, h47]
      by_cases hq : b.quiet_mode <;> by_cases hlt : pyStartswith text "<" <;>
        simp [packet_downstream_chat_message, hdec, h759', hq, hlt,
          downstreamSends, h47]

/-- Witness for C3: at protocol 760 the notice is not a chat_message
packet, and at protocol 340 the reparsed notice `"restarting"` is
forwarded even under quiet mode (it does not start with `"<"`). -/
theorem send_system_reparse_classification_witness :
    packetIsChatMessage (send_system 760 "hello") = false ∧
    ¬ downstreamSends (packet_downstream_chat_message 340 ⟨true, true⟩
        (.withText "restarting" (.classic 0))).2 = [] := by
  constructor
  · exact (send_system_reparse_classification 760 "hello" ⟨true, true⟩).1
      (by decide)
  · intro hempty
    have h := (((send_system_reparse_classification 340 "restarting"
      ⟨true, true⟩).2 (by decide)).2.2).mp hempty
    exact absurd h.2.1 (by decide)

/-- C8: when the session-server confirmation returns no result
(`data is None`): a stored credential entry with a non-empty id lets the
handshake proceed with that id substituted; no stored entry raises a
fatal error; a stored entry whose uuid field is empty or null raises a
fatal error with a different message. The handler is a single pass — each
case resolves immediately to exactly one of these outcomes, with no
retry. -/
theorem auth_ok_fallback_behaviour (c : Credentials) (u : String) :
    (auth_ok none none = .error msg_no_credentials) ∧
    (c.uuid = some u → u ≠ "" → auth_ok (some c) none = .ok ⟨u⟩) ∧
    (c.uuid = none ∨ c.uuid = some "" → auth_ok (some c) none = .error msg_no_uuid) ∧
    msg_no_credentials ≠ msg_no_uuid := by
  refine ⟨rfl, ?_, ?_, by decide⟩
  · intro hu hne
    simp [auth_ok, hu, hne]
  · rintro (hu | hu) <;> simp [auth_ok, hu]

/-- Witness for C8: a stored entry with a non-empty uuid is substituted. -/
theorem auth_ok_fallback_behaviour_witness :
    auth_ok (some ⟨"Alice", some "c0ffee", "tok", "tok"⟩) none =
      .ok ⟨"c0ffee"⟩ :=
  (auth_ok_fallback_behaviour ⟨"Alice", some "c0ffee", "tok", "tok"⟩
    "c0ffee").2.1 rfl (by decide)
